import Mathlib

/-!
Shallow embedding of the EcoTrip backend carbon-emissions / green-score /
itinerary-generation pipeline.

Sources embedded:
- `src/backend/src/services/googlePlacesService.js` (`CarbonService`):
  `calculateTransportEmissions`, `calculateAccommodationEmissions`,
  `calculateActivityEmissions`, `calculateTripEmissions`, `calculateGreenScore`.
- `src/backend/src/server.js` (`OpenAIService`):
  `validateAndEnhanceItinerary`, `generateDemoItinerary`, `generateItinerary`.
- `src/backend/src/services/itineraryService.js` (`ItineraryService`):
  `calculateTotalCost`, `generateTrip`.

Modelling conventions:
- JS numbers are modelled as exact rationals `ℚ`; `Math.round x` is
  `⌊x + 1/2⌋` (JS rounds half toward +∞).
- JS object fields that may be absent are `Option` fields; JS truthiness of a
  field is `some v` with `v` non-zero / non-empty.
- The emission-factor table (`EmissionFactor.findByCategoryAndSubCategory`,
  which returns the active row or `undefined`) is a parameter of type
  `String → String → Option ℚ`.
- Calendar dates are modelled as integer day numbers, so
  `differenceInDays(end, start)` is `end - start` and "start date + i days"
  is `start + i`.
- External providers (OpenAI, geocoding) are parameters: the AI draft is an
  `Option RawItinerary` (`none` = provider failure / unparsable JSON), the
  geocode result an `Option Location`.
-/

namespace EcoTrip

/-- JS `Math.round`: rounds to the nearest integer, halves toward +∞. -/
def jsRound (q : ℚ) : ℤ := ⌊q + 1/2⌋

/-- `Math.round(x * 100) / 100`: round to 2 decimal places. -/
def round2 (q : ℚ) : ℚ := (jsRound (q * 100) : ℚ) / 100

/-- JS `a || b` for a possibly-missing string field: `undefined` and `""` are
falsy. -/
def jsOrS (o : Option String) (dflt : String) : String :=
  match o with
  | some s => if s = "" then dflt else s
  | none => dflt

/-- JS `a || b` for a possibly-missing numeric field: `undefined` and `0` are
falsy. -/
def jsOrQ (o : Option ℚ) (dflt : ℚ) : ℚ :=
  match o with
  | some q => if q = 0 then dflt else q
  | none => dflt

/-- JS truthiness of a possibly-missing numeric field. -/
def truthyQ (o : Option ℚ) : Prop :=
  match o with
  | some q => q ≠ 0
  | none => False

instance : DecidablePred truthyQ := fun o => by
  unfold truthyQ; cases o <;> infer_instance

/-- JS truthiness of a possibly-missing string field. -/
def truthyS (o : Option String) : Prop :=
  match o with
  | some s => s ≠ ""
  | none => False

instance : DecidablePred truthyS := fun o => by
  unfold truthyS; cases o <;> infer_instance

/-- The emission-factor table: `(category, sub_category) ↦` factor of the
active row, `none` when `findByCategoryAndSubCategory` finds no active row. -/
def FactorTable : Type := String → String → Option ℚ

/-- JS `String.prototype.toLowerCase()` (character-wise lower-casing; the
sub-category strings involved are ASCII). -/
def jsToLower (s : String) : String := ⟨s.data.map Char.toLower⟩

/-- The `modeMap` literal in `CarbonService.calculateTransportEmissions`. -/
def modeMap (m : String) : Option String :=
  if m = "car" then some "car_average"
  else if m = "train" then some "train_national"
  else if m = "bus" then some "bus_local"
  else if m = "flight" then some "flight_medium_haul"
  else if m = "taxi" then some "taxi_regular"
  else if m = "bicycle" then some "bicycle"
  else if m = "walking" then some "walking"
  else none

/-- `CarbonService.calculateTransportEmissions(mode, distanceKm)`.
Guard: `!mode || !distanceKm || distanceKm <= 0` returns 0. The sub-category
is `modeMap[mode.toLowerCase()] || mode`; a missing factor falls back to the
`car_average` row, and failing that to the constant `0.171` kg/km. -/
def calculateTransportEmissions (tbl : FactorTable) (mode : String)
    (distanceKm : ℚ) : ℚ :=
  if mode = "" ∨ distanceKm ≤ 0 then 0
  else
    let subCategory := (modeMap (jsToLower mode)).getD mode
    match tbl "transport" subCategory with
    | some f => distanceKm * f
    | none =>
      match tbl "transport" "car_average" with
      | some f => distanceKm * f
      | none => distanceKm * (171/1000)

/-- `CarbonService.calculateAccommodationEmissions(type, nights)`.
Guard: `!type || !nights || nights <= 0` returns 0. Direct lookup (no alias
map, no lower-casing); missing factor falls back to the `hotel_standard` row,
and failing that to the constant `20.9` kg/night. -/
def calculateAccommodationEmissions (tbl : FactorTable) (accomType : String)
    (nights : ℚ) : ℚ :=
  if accomType = "" ∨ nights ≤ 0 then 0
  else
    match tbl "accommodation" accomType with
    | some f => nights * f
    | none =>
      match tbl "accommodation" "hotel_standard" with
      | some f => nights * f
      | none => nights * (209/10)

/-- The `activityMap` literal in `CarbonService.calculateActivityEmissions`. -/
def activityMap (a : String) : Option String :=
  if a = "museum" then some "museum_indoor"
  else if a = "restaurant" then some "restaurant_meal"
  else if a = "cafe" then some "cafe_snack"
  else if a = "shopping" then some "shopping_mall"
  else if a = "hiking" then some "outdoor_activity"
  else if a = "tour" then some "tour_guided"
  else if a = "outdoor" then some "outdoor_activity"
  else none

/-- `CarbonService.calculateActivityEmissions(activityType, count)`.
Guard: `!activityType || count <= 0` returns 0. Sub-category is
`activityMap[activityType.toLowerCase()] || activityType`; a missing factor
falls back to the constant `1.5` kg per occurrence. -/
def calculateActivityEmissions (tbl : FactorTable) (activityType : String)
    (count : ℚ) : ℚ :=
  if activityType = "" ∨ count ≤ 0 then 0
  else
    let subCategory := (activityMap (jsToLower activityType)).getD activityType
    match tbl "activity" subCategory with
    | some f => count * f
    | none => count * (3/2)

/-- The piecewise score curve inside `CarbonService.calculateGreenScore`,
before rounding and clamping: the `if/else` chain on `dailyEmissions`. -/
def rawScore (dailyEmissions : ℚ) : ℚ :=
  if dailyEmissions < 5 then 100 - dailyEmissions * 2
  else if dailyEmissions < 15 then 90 - (dailyEmissions - 5) * 4
  else if dailyEmissions < 30 then 50 - (dailyEmissions - 15) * 2
  else if dailyEmissions < 50 then 20 - (dailyEmissions - 30) * (1/2)
  else max 0 (10 - (dailyEmissions - 50) * (1/5))

/-- `CarbonService.calculateGreenScore(totalCarbonKg, tripDays)`.
Guard: `!totalCarbonKg || !tripDays || tripDays <= 0` returns 0 (note that
`totalCarbonKg = 0` is falsy in JS and hits this guard). Otherwise applies
the piecewise curve to `totalCarbonKg / tripDays`, then
`Math.max(0, Math.min(100, Math.round(score)))`. -/
def calculateGreenScore (totalCarbonKg : ℚ) (tripDays : ℚ) : ℤ :=
  if totalCarbonKg = 0 ∨ tripDays ≤ 0 then 0
  else
    let dailyEmissions := totalCarbonKg / tripDays
    max 0 (min 100 (jsRound (rawScore dailyEmissions)))

/-- JS `a || b` for a possibly-missing integer field (`0` is falsy). -/
def jsOrZ (o : Option ℤ) (dflt : ℤ) : ℤ :=
  match o with
  | some n => if n = 0 then dflt else n
  | none => dflt

/-- An activity object as it flows through the pipeline. Every field a reader
of the code accesses is present; `none` models an absent JS key. -/
structure RawActivity where
  id : Option String := none
  time : Option String := none
  title : Option String := none
  name : Option String := none
  location : Option String := none
  duration_hours : Option ℚ := none
  estimated_cost : Option ℚ := none
  cost : Option ℚ := none
  carbon_kg : Option ℚ := none
  type : Option String := none
  category : Option String := none
  description : Option String := none
  transport_mode : Option String := none
  transport_distance_km : Option ℚ := none
  eco_alternative : Option String := none
  sustainability_tip : Option String := none
deriving DecidableEq

/-- The `meals` sub-record of a day. -/
structure Meals where
  breakfast : Option String := none
  lunch : Option String := none
  dinner : Option String := none
deriving DecidableEq

/-- A day object of an itinerary. Dates are integer day numbers. -/
structure RawDay where
  day : Option ℤ := none
  date : Option ℤ := none
  theme : Option String := none
  activities : Option (List RawActivity) := none
  meals : Option Meals := none
  daily_cost : Option ℚ := none
deriving DecidableEq

/-- An itinerary object (AI draft, demo template, or normalized output). -/
structure RawItinerary where
  summary : Option String := none
  sustainability_score : Option ℚ := none
  estimated_total_cost : Option ℚ := none
  days : Option (List RawDay) := none
  packing_tips : Option (List String) := none
  eco_tips : Option (List String) := none
  local_customs : Option (List String) := none
  destination_coordinates : Option (ℚ × ℚ) := none
  transport_carbon : Option ℚ := none
  accommodation_carbon : Option ℚ := none
  activities_carbon : Option ℚ := none
deriving DecidableEq

/-- The argument object of `CarbonService.calculateTripEmissions`. -/
structure CarbonTripData where
  accommodation_preference : Option String := none
  nights : Option ℚ := none
  itinerary : Option RawItinerary := none
  destination_distance_km : Option ℚ := none

/-- The result object of `CarbonService.calculateTripEmissions`. -/
structure EmissionsResult where
  transport : ℚ
  accommodation : ℚ
  activities : ℚ
  total : ℚ
deriving DecidableEq

/-- Per-activity emission from its `category` key:
`if (activity.category) { ... calculateActivityEmissions(activity.category, 1) }`. -/
def activityCategoryEmission (tbl : FactorTable) (a : RawActivity) : ℚ :=
  if truthyS a.category then
    calculateActivityEmissions tbl (a.category.getD "") 1
  else 0

/-- Per-activity inter-activity transport leg:
`if (activity.transport_distance_km && activity.transport_mode) { ... }`. -/
def activityLegEmission (tbl : FactorTable) (a : RawActivity) : ℚ :=
  if truthyQ a.transport_distance_km ∧ truthyS a.transport_mode then
    calculateTransportEmissions tbl (a.transport_mode.getD "")
      (a.transport_distance_km.getD 0)
  else 0

/-- The accommodation summand of `calculateTripEmissions`:
`if (tripData.accommodation_preference && tripData.nights) { ... }`. -/
def accommodationRaw (tbl : FactorTable) (td : CarbonTripData) : ℚ :=
  if truthyS td.accommodation_preference ∧ truthyQ td.nights then
    calculateAccommodationEmissions tbl (td.accommodation_preference.getD "")
      (td.nights.getD 0)
  else 0

/-- The activity-emission accumulation of the `calculateTripEmissions`
itinerary loop, over a days array. -/
def daysActivityRaw (tbl : FactorTable) (days : Option (List RawDay)) : ℚ :=
  match days with
  | none => 0
  | some ds =>
    (ds.map (fun d =>
      ((d.activities.getD []).map (activityCategoryEmission tbl)).sum)).sum

/-- The inter-activity transport accumulation of the
`calculateTripEmissions` itinerary loop, over a days array. -/
def daysLegRaw (tbl : FactorTable) (days : Option (List RawDay)) : ℚ :=
  match days with
  | none => 0
  | some ds =>
    (ds.map (fun d =>
      ((d.activities.getD []).map (activityLegEmission tbl)).sum)).sum

/-- The un-rounded activity-emission accumulation of the
`calculateTripEmissions` itinerary loop (`if (tripData.itinerary &&
tripData.itinerary.days)`). -/
def itineraryActivityRaw (tbl : FactorTable) (td : CarbonTripData) : ℚ :=
  match td.itinerary with
  | none => 0
  | some it => daysActivityRaw tbl it.days

/-- The un-rounded inter-activity transport accumulation of the
`calculateTripEmissions` itinerary loop. -/
def itineraryLegRaw (tbl : FactorTable) (td : CarbonTripData) : ℚ :=
  match td.itinerary with
  | none => 0
  | some it => daysLegRaw tbl it.days

/-- The round-trip destination flight leg of `calculateTripEmissions`:
added only when `destination_distance_km` is truthy and `> 100`, with the
flight class picked by the nested ternary on the distance. -/
def destinationFlightRaw (tbl : FactorTable) (td : CarbonTripData) : ℚ :=
  match td.destination_distance_km with
  | none => 0
  | some dd =>
    if dd ≠ 0 ∧ dd > 100 then
      let flightMode :=
        if dd > 3700 then "flight_long_haul"
        else if dd > 500 then "flight_medium_haul"
        else "flight_short_haul"
      calculateTransportEmissions tbl flightMode (dd * 2)
    else 0

/-- `CarbonService.calculateTripEmissions(tripData)`: accumulates the three
component sums and returns each rounded to 2 decimals, with `total` the
separately rounded sum of the un-rounded components. -/
def calculateTripEmissions (tbl : FactorTable) (td : CarbonTripData) :
    EmissionsResult :=
  let transportEmissions := itineraryLegRaw tbl td + destinationFlightRaw tbl td
  let accommodationEmissions := accommodationRaw tbl td
  let activityEmissions := itineraryActivityRaw tbl td
  let totalEmissions := transportEmissions + accommodationEmissions + activityEmissions
  { transport := round2 transportEmissions
    accommodation := round2 accommodationEmissions
    activities := round2 activityEmissions
    total := round2 totalEmissions }

/-- `ItineraryService.calculateTotalCost(itinerary)`: sums `activity.cost || 0`
over every activity and `day.daily_cost || 0` over every day, rounded to 2
decimals; returns 0 when `itinerary.days` is not an array. -/
def calculateTotalCost (it : RawItinerary) : ℚ :=
  match it.days with
  | none => 0
  | some ds =>
    round2 ((ds.map (fun d =>
      ((d.activities.getD []).map (fun a => a.cost.getD 0)).sum
        + d.daily_cost.getD 0)).sum)

/-- JS `Array.prototype.map((x, i) => f i x)`, starting the index at `n`. -/
def mapWithIndex (f : ℕ → α → β) : ℕ → List α → List β
  | _, [] => []
  | n, a :: as => f n a :: mapWithIndex f (n + 1) as

/-- The trip-request data (`tripData`) as the pipeline reads it. Dates are
integer day numbers. -/
structure TripData where
  destination : String
  start_date : ℤ
  end_date : ℤ
  budget : ℚ
  interests : List String := []
  travel_style : String := "balanced"
  accommodation_preference : String := "hotel_standard"
  transport_preference : String := "mixed"
deriving DecidableEq

/-- A geocoding result (`googlePlacesService.geocodeDestination`). -/
structure Location where
  formatted_address : String
  latitude : ℚ
  longitude : ℚ
  place_id : Option String := none
deriving DecidableEq

/-- The activity normalization inside
`OpenAIService.validateAndEnhanceItinerary`: a fresh object literal with
exactly the keys `id`, `time`, `title`, `location`, `duration_hours`,
`estimated_cost`, `carbon_kg`, `type`, `description`, `transport_mode`,
`eco_alternative`; every other key of the draft activity is dropped. -/
def normalizeActivity (dayIndex actIndex : ℕ) (a : RawActivity) : RawActivity :=
  { id := some (jsOrS a.id (toString (dayIndex + 1) ++ "-" ++ toString (actIndex + 1)))
    time := some (jsOrS a.time "09:00")
    title := some (jsOrS a.title (jsOrS a.name "Unnamed Activity"))
    name := none
    location := some (jsOrS a.location "")
    duration_hours := some (jsOrQ a.duration_hours 2)
    estimated_cost := some (jsOrQ a.estimated_cost (jsOrQ a.cost 0))
    cost := none
    carbon_kg := some (jsOrQ a.carbon_kg (3/2))
    type := some (jsOrS a.type (jsOrS a.category "tour"))
    category := none
    description := some (jsOrS a.description "")
    transport_mode := some (jsOrS a.transport_mode "walking")
    transport_distance_km := none
    eco_alternative := some (jsOrS a.eco_alternative (jsOrS a.sustainability_tip ""))
    sustainability_tip := none }

/-- The day normalization inside `validateAndEnhanceItinerary`:
`{...day, day: day.day || index+1, date: startDate + index,
activities: (day.activities || []).map(...)}`. -/
def normalizeDay (startDate : ℤ) (dayIndex : ℕ) (d : RawDay) : RawDay :=
  { d with
    day := some (jsOrZ d.day ((dayIndex : ℤ) + 1))
    date := some (startDate + (dayIndex : ℤ))
    activities :=
      some (mapWithIndex (fun ai a => normalizeActivity dayIndex ai a) 0
        (d.activities.getD [])) }

/-- `OpenAIService.validateAndEnhanceItinerary(itinerary, tripData)`.
Throws `Invalid itinerary structure` when `itinerary.days` is not an array;
otherwise normalizes every day and activity, fills in
`estimated_total_cost` (sum of `daily_cost`) when falsy, and defaults
`sustainability_score` to 75 when falsy. Only `tripData.start_date` is read
from the second argument. -/
def validateAndEnhanceItinerary (it : RawItinerary) (startDate : ℤ) :
    Except String RawItinerary :=
  match it.days with
  | none => .error "Invalid itinerary structure"
  | some ds =>
    let days := mapWithIndex (normalizeDay startDate) 0 ds
    let it1 : RawItinerary := { it with days := some days }
    let it2 :=
      if truthyQ it1.estimated_total_cost then it1
      else { it1 with
        estimated_total_cost := some ((days.map (fun d => d.daily_cost.getD 0)).sum) }
    let it3 :=
      if truthyQ it2.sustainability_score then it2
      else { it2 with sustainability_score := some 75 }
    .ok it3

/-- One activity of the fixed demo pattern, picked by its position `k`
(0-based) within the day; `day` is the 1-based day number. Transcribed from
the five object literals in `OpenAIService.generateDemoItinerary`. -/
def demoActivity (destination : String) (day : ℤ) (k : ℕ) : RawActivity :=
  if k = 0 then
    { id := some (toString day ++ "-1"), time := some "09:00"
      title := some ("Morning Exploration of " ++ destination)
      location := some ("Central " ++ destination)
      duration_hours := some 2, estimated_cost := some 0
      carbon_kg := some (1/2), type := some "outdoor_activity"
      description := some "Start your day with a walking tour of the city center"
      transport_mode := some "walking"
      eco_alternative := some "Walking is the most eco-friendly way to explore" }
  else if k = 1 then
    { id := some (toString day ++ "-2"), time := some "11:30"
      title := some "Local Museum Visit", location := some "City Museum"
      duration_hours := some 2, estimated_cost := some 15
      carbon_kg := some 2, type := some "museum"
      description := some "Explore local history and culture"
      transport_mode := some "walking"
      eco_alternative := some "Support local cultural institutions" }
  else if k = 2 then
    { id := some (toString day ++ "-3"), time := some "13:30"
      title := some "Lunch at Local Restaurant"
      location := some "Local Cuisine Restaurant"
      duration_hours := some (3/2), estimated_cost := some 25
      carbon_kg := some (7/2), type := some "restaurant"
      description := some "Try authentic local dishes made with seasonal ingredients"
      transport_mode := some "walking"
      eco_alternative := some "Choose restaurants using locally-sourced ingredients" }
  else if k = 3 then
    { id := some (toString day ++ "-4"), time := some "15:30"
      title := some "Afternoon Cultural Experience"
      location := some "Historic District"
      duration_hours := some 2, estimated_cost := some 10
      carbon_kg := some (3/2), type := some "tour"
      description := some "Guided walking tour of historic landmarks"
      transport_mode := some "walking"
      eco_alternative := some "Walking tours have zero carbon footprint" }
  else
    { id := some (toString day ++ "-5"), time := some "18:00"
      title := some "Evening Leisure", location := some "City Park"
      duration_hours := some 1, estimated_cost := some 0
      carbon_kg := some 0, type := some "outdoor_activity"
      description := some "Relax in a local park and enjoy the atmosphere"
      transport_mode := some "walking"
      eco_alternative := some "Public parks are free and eco-friendly" }

/-- One day of the demo itinerary (`day` is the 1-based loop variable). -/
def demoDay (td : TripData) (numDays : ℤ) (day : ℤ) : RawDay :=
  let dailyBudget : ℤ := jsRound (td.budget / (numDays : ℚ) * (4/5))
  { day := some day
    date := some (td.start_date + (day - 1))
    theme := some (if day = 1 then "Arrival & Exploration"
      else if day = numDays then "Final Day & Departure"
      else "Discover " ++ td.destination)
    activities := some ((List.range 5).map (demoActivity td.destination day))
    meals := some
      { breakfast := some "Hotel breakfast or local bakery"
        lunch := some "Local restaurant with seasonal menu"
        dinner := some "Traditional local cuisine" }
    daily_cost := some (dailyBudget : ℚ) }

/-- The raw demo itinerary object built by
`OpenAIService.generateDemoItinerary` before it is passed to
`validateAndEnhanceItinerary`: `numDays = differenceInDays(end, start) + 1`
days, each with the fixed 5-activity pattern. -/
def demoRawItinerary (td : TripData) : RawItinerary :=
  let numDays : ℤ := td.end_date - td.start_date + 1
  { summary := some ("An eco-friendly " ++ toString numDays ++ "-day adventure in "
      ++ td.destination ++ " with sustainable transportation, local experiences, and "
      ++ "carbon-conscious activities. This is a DEMO itinerary showing the platform capabilities.")
    sustainability_score := some 85
    estimated_total_cost := some (min (td.budget * (9/10)) (td.budget - 100))
    days := some ((List.range numDays.toNat).map
      (fun (i : ℕ) => demoDay td numDays ((i : ℤ) + 1)))
    packing_tips := some ["Reusable water bottle", "Eco-friendly toiletries",
      "Comfortable walking shoes", "Light, layered clothing", "Reusable shopping bag"]
    eco_tips := some ["Use public transportation whenever possible",
      "Support local businesses and artisans",
      "Choose restaurants with locally-sourced ingredients",
      "Avoid single-use plastics", "Walk or cycle for short distances"]
    local_customs := some ["Respect local customs and traditions",
      "Learn a few basic phrases in the local language",
      "Dress appropriately for cultural sites",
      "Ask permission before taking photos of people"] }

/-- `OpenAIService.generateDemoItinerary(tripData)`: builds the demo object
and returns `validateAndEnhanceItinerary` of it. -/
def generateDemoItinerary (td : TripData) : Except String RawItinerary :=
  validateAndEnhanceItinerary (demoRawItinerary td) td.start_date

/-- `OpenAIService.generateItinerary(tripData)`. The AI provider outcome is
the parameter `ai`: `some draft` is a successfully parsed JSON response,
`none` a provider failure. Both a provider failure and a
`validateAndEnhanceItinerary` throw on the draft are caught by the same
`catch`, which falls back to the demo itinerary. -/
def generateItinerary (td : TripData) (ai : Option RawItinerary) :
    Except String RawItinerary :=
  match ai with
  | some draft =>
    match validateAndEnhanceItinerary draft td.start_date with
    | .ok v => .ok v
    | .error _ => generateDemoItinerary td
  | none => generateDemoItinerary td

/-- The composed object returned by `ItineraryService.generateTrip`. -/
structure TripResult where
  itinerary : RawItinerary
  location : Location
  total_carbon_kg : ℚ
  total_cost : ℚ
  green_score : ℤ
  carbon_breakdown : EmissionsResult
deriving DecidableEq

/-- `ItineraryService.enhanceItineraryWithPlaceData(itinerary, locationData)`:
attaches the destination coordinates to the itinerary and returns it. -/
def enhanceItineraryWithPlaceData (itinerary : RawItinerary)
    (locationData : Location) : RawItinerary :=
  { itinerary with
    destination_coordinates := some (locationData.latitude, locationData.longitude) }

/-- The fallback location substituted in `generateTrip` when geocoding
fails: zero coordinates, the destination string as address. -/
def fallbackLocation (td : TripData) : Location :=
  { formatted_address := td.destination, latitude := 0, longitude := 0
    place_id := none }

/-- The success path of `ItineraryService.generateTrip` after step 2
produced the itinerary `itinerary`: enhance with coordinates,
`calculateTripEmissions` with `nights = numDays` and
`destination_distance_km: 0`, `calculateGreenScore`, `calculateTotalCost`,
then attach the carbon breakdown to the itinerary and compose the result. -/
def composeTrip (tbl : FactorTable) (td : TripData) (geo : Option Location)
    (itinerary : RawItinerary) : TripResult :=
  let locationData : Location :=
    match geo with
    | some l => l
    | none => fallbackLocation td
  let enhancedItinerary : RawItinerary :=
    enhanceItineraryWithPlaceData itinerary locationData
  let numDays : ℤ := td.end_date - td.start_date + 1
  let emissions := calculateTripEmissions tbl
    { accommodation_preference := some td.accommodation_preference
      nights := some (numDays : ℚ)
      itinerary := some enhancedItinerary
      destination_distance_km := some 0 }
  let greenScore := calculateGreenScore emissions.total (numDays : ℚ)
  let totalCost := calculateTotalCost enhancedItinerary
  let finalItinerary : RawItinerary :=
    { enhancedItinerary with
      transport_carbon := some emissions.transport
      accommodation_carbon := some emissions.accommodation
      activities_carbon := some emissions.activities }
  { itinerary := finalItinerary
    location := locationData
    total_carbon_kg := emissions.total
    total_cost := totalCost
    green_score := greenScore
    carbon_breakdown := emissions }

/-- `ItineraryService.generateTrip(tripData)`. The geocoding outcome is the
parameter `geo` (`none` = provider failure, replaced by the fallback
location) and the AI outcome is `ai` as in `generateItinerary`. An exception
escaping the steps is re-thrown (`Except.error`). -/
def generateTrip (tbl : FactorTable) (td : TripData) (geo : Option Location)
    (ai : Option RawItinerary) : Except String TripResult :=
  match generateItinerary td ai with
  | .error e => .error e
  | .ok itinerary => .ok (composeTrip tbl td geo itinerary)

instance : Inhabited RawItinerary := ⟨{}⟩

instance : Inhabited Location := ⟨{ formatted_address := "", latitude := 0, longitude := 0 }⟩

instance : Inhabited EmissionsResult := ⟨{ transport := 0, accommodation := 0, activities := 0, total := 0 }⟩

instance : Inhabited TripResult :=
  ⟨{ itinerary := default, location := default, total_carbon_kg := 0
     total_cost := 0, green_score := 0, carbon_breakdown := default }⟩

/-- Modelled from the spec words for claim C1 only (stage 5, "Aggregate
cost"): sum every activity `estimated_cost` plus every day `daily_cost`
across the itinerary (both contribute), rounded to 2 decimals. Compared
against the source-derived `calculateTotalCost`, which reads the absent
`cost` key instead. -/
def specTotalCost (it : RawItinerary) : ℚ :=
  round2 (((it.days.getD []).map (fun d =>
    ((d.activities.getD []).map (fun a => a.estimated_cost.getD 0)).sum
      + d.daily_cost.getD 0)).sum)

/-- An empty emission-factor table: every lookup misses, exercising the
hard-coded fallback constants. -/
def tbl0 : FactorTable := fun _ _ => none

/-- A concrete 3-day trip request used by the concrete-instance theorems. -/
def td0 : TripData :=
  { destination := "Paris", start_date := 0, end_date := 2, budget := 300 }

/-- The pipeline output on `td0` with both providers failing. -/
def pipeTrip : TripResult := (generateTrip tbl0 td0 none none).toOption.getD default

/-- A factor table distinguishing the short- and medium-haul flight rows. -/
def tbl8 : FactorTable := fun c s =>
  if c = "transport" ∧ s = "flight_short_haul" then some (3/20)
  else if c = "transport" ∧ s = "flight_medium_haul" then some (19/100)
  else none

/-- A `calculateTripEmissions` input whose destination distance is exactly
500 km (no itinerary, no accommodation, isolating the flight leg). -/
def trip8 : CarbonTripData := { destination_distance_km := some 500 }

/-- A factor table with 0.005 kg/unit rows, chosen so that rounding the
components and rounding their sum disagree in the last decimal. -/
def tbl9 : FactorTable := fun c s =>
  if c = "transport" ∧ s = "w" then some (1/200)
  else if c = "accommodation" ∧ s = "h" then some (1/200)
  else none

/-- The single activity of `trip9`: one 1 km leg by mode `"w"`. -/
def act9 : RawActivity :=
  { transport_mode := some "w", transport_distance_km := some 1 }

/-- The single-day itinerary of `trip9`. -/
def itin9 : RawItinerary := { days := some [{ activities := some [act9] }] }

/-- A one-night, one-leg `calculateTripEmissions` input over `tbl9`. -/
def trip9 : CarbonTripData :=
  { accommodation_preference := some "h"
    nights := some 1
    itinerary := some itin9
    destination_distance_km := none }

/-- A `calculateTripEmissions` input with zero activities and zero nights. -/
def tripZero : CarbonTripData :=
  { accommodation_preference := some "hotel_standard"
    nights := some 0
    itinerary := some { days := some [] }
    destination_distance_km := none }

theorem mapWithIndex_length (f : ℕ → α → β) :
    ∀ (n : ℕ) (l : List α), (mapWithIndex f n l).length = l.length := by
  intro n l
  induction l generalizing n with
  | nil => rfl
  | cons a as ih => simp [mapWithIndex, ih]

theorem mem_mapWithIndex {f : ℕ → α → β} {b : β} :
    ∀ (n : ℕ) (l : List α), b ∈ mapWithIndex f n l → ∃ i a, a ∈ l ∧ b = f i a := by
  intro n l
  induction l generalizing n with
  | nil => intro h; cases h
  | cons a as ih =>
    intro h
    rcases List.mem_cons.mp h with h1 | h2
    · exact ⟨n, a, List.mem_cons_self a as, h1⟩
    · rcases ih (n + 1) h2 with ⟨i, x, hx, hb⟩
      exact ⟨i, x, List.mem_cons_of_mem a hx, hb⟩

theorem mapWithIndex_ne_nil (f : ℕ → α → β) (n : ℕ) (l : List α)
    (h : l ≠ []) : mapWithIndex f n l ≠ [] := by
  intro hcon
  apply h
  have := mapWithIndex_length f n l
  rw [hcon] at this
  exact List.length_eq_zero.mp this.symm

theorem mapWithIndex_get (f : ℕ → α → β) :
    ∀ (n : ℕ) (l : List α) (i : ℕ) (hi : i < l.length)
      (hi2 : i < (mapWithIndex f n l).length),
      (mapWithIndex f n l).get ⟨i, hi2⟩ = f (n + i) (l.get ⟨i, hi⟩) := by
  intro n l
  induction l generalizing n with
  | nil => intro i hi _; exact absurd hi (Nat.not_lt_zero i)
  | cons a as ih =>
    intro i hi hi2
    cases i with
    | zero => simp [mapWithIndex]
    | succ j =>
      have hj : j < as.length := Nat.lt_of_succ_lt_succ hi
      have hj2 : j < (mapWithIndex f (n + 1) as).length := by
        rw [mapWithIndex_length]; exact hj
      show (mapWithIndex f (n + 1) as).get ⟨j, hj2⟩ = _
      rw [ih (n + 1) j hj hj2]
      congr 1
      omega

theorem sum_map_congr {l : List α} {f g : α → ℚ} (h : ∀ a ∈ l, f a = g a) :
    (l.map f).sum = (l.map g).sum := by
  induction l with
  | nil => rfl
  | cons a as ih =>
    simp only [List.map_cons, List.sum_cons]
    rw [h a (List.mem_cons_self a as),
      ih (fun x hx => h x (List.mem_cons_of_mem a hx))]

theorem jsRound_mono {a b : ℚ} (h : a ≤ b) : jsRound a ≤ jsRound b :=
  Int.floor_le_floor (by linarith)

theorem jsRound_nonneg {q : ℚ} (h : 0 ≤ q) : 0 ≤ jsRound q :=
  Int.le_floor.mpr (by push_cast; linarith)

theorem jsRound_eq (n : ℤ) {q : ℚ} (h1 : (n : ℚ) ≤ q + 1/2)
    (h2 : q + 1/2 < (n : ℚ) + 1) : jsRound q = n := by
  unfold jsRound
  rw [Int.floor_eq_iff]
  exact ⟨h1, by linarith⟩

theorem round2_nonneg {q : ℚ} (h : 0 ≤ q) : 0 ≤ round2 q := by
  have h1 := jsRound_nonneg (mul_nonneg h (by norm_num : (0:ℚ) ≤ 100))
  exact div_nonneg (by exact_mod_cast h1) (by norm_num)

theorem round2_zero : round2 0 = 0 := by
  unfold round2
  rw [zero_mul, jsRound_eq 0 (by norm_num) (by norm_num)]
  norm_num

/-- The piecewise curve is non-increasing. -/
theorem rawScore_antitone {a b : ℚ} (h : a ≤ b) : rawScore b ≤ rawScore a := by
  unfold rawScore
  split_ifs <;>
    first
      | linarith
      | (apply max_le <;> linarith)
      | (exact max_le_max le_rfl (by linarith))

/-- Evaluate `calculateGreenScore` outside the guard at a known curve value. -/
theorem greenScore_eval {x d r : ℚ} (n : ℤ) (hx : x ≠ 0) (hd : 0 < d)
    (hr : rawScore (x / d) = r) (hn : jsRound r = n) (h0 : 0 ≤ n)
    (h100 : n ≤ 100) : calculateGreenScore x d = n := by
  unfold calculateGreenScore
  rw [if_neg (by push_neg; exact ⟨hx, hd⟩)]
  show max 0 (min 100 (jsRound (rawScore (x / d)))) = n
  rw [hr, hn, min_eq_right h100, max_eq_right h0]

/-- Claim C3 (amended): for every tripDays `d > 0`,
`calculateGreenScore(0, d)` returns 0 (the guard treats a zero total as
falsy), not 100. -/
theorem c3_amended (d : ℚ) (_hd : 0 < d) : calculateGreenScore 0 d = 0 := by
  unfold calculateGreenScore
  exact if_pos (Or.inl rfl)

/-- Claim C3 counterexample: `calculateGreenScore(0, 7)` evaluates to 0, not
100 — the falsy-carbon guard fires before the curve. -/
theorem c3_counterexample :
    calculateGreenScore 0 7 = 0 ∧ calculateGreenScore 0 7 ≠ 100 := by
  have h : calculateGreenScore 0 7 = 0 := by
    unfold calculateGreenScore
    exact if_pos (Or.inl rfl)
  exact ⟨h, by rw [h]; norm_num⟩

theorem c3_witness : (0 : ℚ) < 7 ∧ calculateGreenScore 0 7 = 0 :=
  ⟨by norm_num, c3_amended 7 (by norm_num)⟩

/-- Claim C4 counterexample: with `tripDays = 1`, the score is not
non-increasing over all `x ≥ 0`: it jumps from 0 at `x = 0` to 98 at
`x = 1`. -/
theorem c4_counterexample :
    (0 : ℚ) ≤ 1 ∧ calculateGreenScore 0 1 < calculateGreenScore 1 1 := by
  have h0 : calculateGreenScore 0 1 = 0 := by
    unfold calculateGreenScore
    exact if_pos (Or.inl rfl)
  have h1 : calculateGreenScore 1 1 = 98 := by
    apply greenScore_eval 98 (by norm_num) (by norm_num)
    · show rawScore (1 / 1) = 98
      unfold rawScore
      norm_num
    · exact jsRound_eq 98 (by norm_num) (by norm_num)
    · norm_num
    · norm_num
  rw [h0, h1]
  exact ⟨by norm_num, by norm_num⟩

/-- Claim C4 (amended): for every fixed `tripDays d > 0`,
`calculateGreenScore(x, d)` is monotonically non-increasing as `x` increases
over all `x > 0` (at `x = 0` the falsy-carbon guard returns 0 instead). -/
theorem c4_amended {d x y : ℚ} (hd : 0 < d) (hx : 0 < x) (hxy : x ≤ y) :
    calculateGreenScore y d ≤ calculateGreenScore x d := by
  have hy : 0 < y := lt_of_lt_of_le hx hxy
  unfold calculateGreenScore
  rw [if_neg (by push_neg; exact ⟨ne_of_gt hy, hd⟩),
    if_neg (by push_neg; exact ⟨ne_of_gt hx, hd⟩)]
  have hdiv : x / d ≤ y / d := by gcongr
  exact max_le_max le_rfl (min_le_min le_rfl (jsRound_mono (rawScore_antitone hdiv)))

theorem c4_witness :
    (0 : ℚ) < 1 ∧ (0 : ℚ) < 1 ∧ (1 : ℚ) ≤ 2 ∧
      calculateGreenScore 2 1 ≤ calculateGreenScore 1 1 :=
  ⟨by norm_num, by norm_num, by norm_num,
    c4_amended (by norm_num) (by norm_num) (by norm_num)⟩

/-- Claim C5: at the breakpoints the score is exactly the boundary value —
daily 5 kg/day gives 90, 15 gives 50, 30 gives 20, 50 gives 10 (via
`calculateGreenScore(daily * d, d)` for any `d > 0`); the adjacent branch
formulas of the curve agree at each breakpoint; and the result is always an
integer (by its type `ℤ`) clamped to `[0, 100]`. -/
theorem c5_theorem (d : ℚ) (hd : 0 < d) :
    calculateGreenScore (5 * d) d = 90 ∧
    calculateGreenScore (15 * d) d = 50 ∧
    calculateGreenScore (30 * d) d = 20 ∧
    calculateGreenScore (50 * d) d = 10 ∧
    rawScore 5 = 100 - 5 * 2 ∧ rawScore 5 = 90 - (5 - 5) * 4 ∧
    rawScore 15 = 90 - (15 - 5) * 4 ∧ rawScore 15 = 50 - (15 - 15) * 2 ∧
    rawScore 30 = 50 - (30 - 15) * 2 ∧ rawScore 30 = 20 - (30 - 30) * (1/2) ∧
    rawScore 50 = 20 - (50 - 30) * (1/2) ∧
    rawScore 50 = max 0 (10 - (50 - 50) * (1/5)) ∧
    (∀ x t : ℚ, 0 ≤ calculateGreenScore x t ∧ calculateGreenScore x t ≤ 100) := by
  have hne : d ≠ 0 := ne_of_gt hd
  have hdc : ∀ c : ℚ, c ≠ 0 → c * d / d = c := by
    intro c _
    rw [mul_div_assoc, div_self hne, mul_one]
  have key : ∀ c : ℚ, ∀ n : ℤ, c ≠ 0 → rawScore c = (n : ℚ) → 0 ≤ n → n ≤ 100 →
      calculateGreenScore (c * d) d = n := by
    intro c n hc hr h0 h100
    refine greenScore_eval (r := (n : ℚ)) n (mul_ne_zero hc hne) hd ?_ ?_ h0 h100
    · rw [hdc c hc]; exact hr
    · exact jsRound_eq n (by linarith) (by linarith)
  refine ⟨?_, ?_, ?_, ?_, ?_, ?_, ?_, ?_, ?_, ?_, ?_, ?_, ?_⟩
  · exact key 5 90 (by norm_num) (by unfold rawScore; norm_num) (by norm_num) (by norm_num)
  · exact key 15 50 (by norm_num) (by unfold rawScore; norm_num) (by norm_num) (by norm_num)
  · exact key 30 20 (by norm_num) (by unfold rawScore; norm_num) (by norm_num) (by norm_num)
  · exact key 50 10 (by norm_num) (by unfold rawScore; norm_num [max_def]) (by norm_num) (by norm_num)
  · unfold rawScore; norm_num
  · unfold rawScore; norm_num
  · unfold rawScore; norm_num
  · unfold rawScore; norm_num
  · unfold rawScore; norm_num
  · unfold rawScore; norm_num
  · unfold rawScore; norm_num [max_def]
  · unfold rawScore; norm_num
  · intro x t
    unfold calculateGreenScore
    split_ifs
    · exact ⟨le_rfl, by norm_num⟩
    · exact ⟨le_max_left _ _, max_le (by norm_num) (min_le_left _ _)⟩

theorem c5_witness :
    (0 : ℚ) < 1 ∧ calculateGreenScore (5 * 1) 1 = 90 ∧
      calculateGreenScore (15 * 1) 1 = 50 ∧ calculateGreenScore (30 * 1) 1 = 20 ∧
      calculateGreenScore (50 * 1) 1 = 10 :=
  ⟨by norm_num, (c5_theorem 1 (by norm_num)).1, (c5_theorem 1 (by norm_num)).2.1,
    (c5_theorem 1 (by norm_num)).2.2.1, (c5_theorem 1 (by norm_num)).2.2.2.1⟩

theorem round2_eq (m : ℤ) {q : ℚ} (h1 : (m : ℚ) ≤ q * 100 + 1/2)
    (h2 : q * 100 + 1/2 < (m : ℚ) + 1) : round2 q = (m : ℚ) / 100 := by
  unfold round2
  rw [jsRound_eq m h1 h2]

/-- Transport emission when the (aliased) sub-category lookup hits a row. -/
theorem calcTransport_hit {tbl : FactorTable} {mode : String} {d f : ℚ}
    (hguard : ¬(mode = "" ∨ d ≤ 0))
    (hsub : tbl "transport" ((modeMap (jsToLower mode)).getD mode) = some f) :
    calculateTransportEmissions tbl mode d = d * f := by
  simp only [calculateTransportEmissions]
  rw [if_neg hguard, hsub]

/-- Accommodation emission when the direct lookup hits a row. -/
theorem calcAccommodation_hit {tbl : FactorTable} {accomType : String}
    {n f : ℚ} (hguard : ¬(accomType = "" ∨ n ≤ 0))
    (hlookup : tbl "accommodation" accomType = some f) :
    calculateAccommodationEmissions tbl accomType n = n * f := by
  simp only [calculateAccommodationEmissions]
  rw [if_neg hguard, hlookup]

/-- Claim C10: an unknown transport mode such as `"teleporter"` with
distance 100 never throws: the lookup miss falls back to the `car_average`
row, and to `100 × 0.171 = 17.1` kg when that row is absent; in particular
the result is 17.1 when `car_average` is absent or carries factor 0.171.
Totality of `calculateTransportEmissions` (no exception propagates) is by
construction of the embedding. -/
theorem c10_theorem (tbl : FactorTable)
    (h : tbl "transport" "teleporter" = none) :
    (calculateTransportEmissions tbl "teleporter" 100 =
      match tbl "transport" "car_average" with
      | some f => 100 * f
      | none => 100 * (171/1000)) ∧
    (tbl "transport" "car_average" = none ∨
        tbl "transport" "car_average" = some (171/1000) →
      calculateTransportEmissions tbl "teleporter" 100 = 171/10) := by
  have hsub : (modeMap (jsToLower "teleporter")).getD "teleporter"
      = "teleporter" := by decide
  have hmain : calculateTransportEmissions tbl "teleporter" 100 =
      match tbl "transport" "car_average" with
      | some f => (100 : ℚ) * f
      | none => (100 : ℚ) * (171/1000) := by
    simp only [calculateTransportEmissions]
    rw [if_neg (by push_neg; exact ⟨by decide, by norm_num⟩), hsub, h]
  refine ⟨hmain, ?_⟩
  intro hca
  rcases hca with hc | hc <;> rw [hmain, hc] <;> norm_num

theorem c10_witness :
    tbl0 "transport" "teleporter" = none ∧
      calculateTransportEmissions tbl0 "teleporter" 100 = 171/10 :=
  ⟨rfl, (c10_theorem tbl0 rfl).2 (Or.inl rfl)⟩

/-- Claim C8 counterexample: at a destination distance of exactly 500 km the
code picks the short-haul factor (`> 500` is strict), not the medium-haul
one the claim requires for "distances from 500 km up": over a table where
short-haul is 0.15 and medium-haul is 0.19 kg/km, the transport component is
150, not the 190 a medium-haul leg would give. -/
theorem c8_counterexample :
    (calculateTripEmissions tbl8 trip8).transport = 150 ∧
      round2 (calculateTransportEmissions tbl8 "flight_medium_haul" (500 * 2))
        = 190 ∧
      (150 : ℚ) ≠ 190 := by
  have hshort : calculateTransportEmissions tbl8 "flight_short_haul" (500 * 2)
      = (500 * 2) * (3/20) := by
    apply calcTransport_hit (by push_neg; exact ⟨by decide, by norm_num⟩)
    rw [show (modeMap (jsToLower "flight_short_haul")).getD "flight_short_haul"
      = "flight_short_haul" from by decide]
    rfl
  have hmed : calculateTransportEmissions tbl8 "flight_medium_haul" (500 * 2)
      = (500 * 2) * (19/100) := by
    apply calcTransport_hit (by push_neg; exact ⟨by decide, by norm_num⟩)
    rw [show (modeMap (jsToLower "flight_medium_haul")).getD "flight_medium_haul"
      = "flight_medium_haul" from by decide]
    rfl
  have hflight : destinationFlightRaw tbl8 trip8
      = calculateTransportEmissions tbl8 "flight_short_haul" (500 * 2) := by
    simp only [destinationFlightRaw, trip8]
    norm_num
  have hleg : itineraryLegRaw tbl8 trip8 = 0 := rfl
  refine ⟨?_, ?_, by norm_num⟩
  · show round2 (itineraryLegRaw tbl8 trip8 + destinationFlightRaw tbl8 trip8) = 150
    rw [hleg, hflight, hshort]
    rw [show (0 : ℚ) + 500 * 2 * (3/20) = 150 by norm_num]
    rw [round2_eq 15000 (by norm_num) (by norm_num)]
    norm_num
  · rw [hmed]
    rw [show (500 : ℚ) * 2 * (19/100) = 190 by norm_num]
    rw [round2_eq 19000 (by norm_num) (by norm_num)]
    norm_num

/-- Claim C8 (amended): the round-trip leg of twice the destination distance
is added (into the transport component) using the flight class chosen by the
strict bands of the code: short-haul for `100 < dd ≤ 500`, medium-haul for
`500 < dd ≤ 3700`, long-haul for `dd > 3700` (so distance exactly 500 is
short-haul, and exactly 3700 medium-haul); for `dd ≤ 100` no leg is added. -/
theorem c8_amended (tbl : FactorTable) (td : CarbonTripData) (dd : ℚ)
    (h : td.destination_distance_km = some dd) :
    (100 < dd → dd ≤ 500 → destinationFlightRaw tbl td
      = calculateTransportEmissions tbl "flight_short_haul" (dd * 2)) ∧
    (500 < dd → dd ≤ 3700 → destinationFlightRaw tbl td
      = calculateTransportEmissions tbl "flight_medium_haul" (dd * 2)) ∧
    (3700 < dd → destinationFlightRaw tbl td
      = calculateTransportEmissions tbl "flight_long_haul" (dd * 2)) ∧
    (dd ≤ 100 → destinationFlightRaw tbl td = 0) ∧
    (calculateTripEmissions tbl td).transport
      = round2 (itineraryLegRaw tbl td + destinationFlightRaw tbl td) := by
  refine ⟨?_, ?_, ?_, ?_, rfl⟩
  · intro h1 h2
    simp only [destinationFlightRaw, h]
    rw [if_pos ⟨ne_of_gt (by linarith), h1⟩, if_neg (by linarith),
      if_neg (by linarith)]
  · intro h1 h2
    simp only [destinationFlightRaw, h]
    rw [if_pos ⟨ne_of_gt (by linarith), by linarith⟩, if_neg (by linarith),
      if_pos h1]
  · intro h1
    simp only [destinationFlightRaw, h]
    rw [if_pos ⟨ne_of_gt (by linarith), by linarith⟩, if_pos h1]
  · intro h1
    simp only [destinationFlightRaw, h]
    rw [if_neg (fun hcon => absurd hcon.2 (by linarith))]

theorem c8_witness :
    trip8.destination_distance_km = some 500 ∧ (100 : ℚ) < 500 ∧
      (500 : ℚ) ≤ 500 ∧ destinationFlightRaw tbl8 trip8
        = calculateTransportEmissions tbl8 "flight_short_haul" (500 * 2) :=
  ⟨rfl, by norm_num, by norm_num,
    (c8_amended tbl8 trip8 500 rfl).1 (by norm_num) (by norm_num)⟩

/-- Claim C9: the four fields of the `calculateTripEmissions` result are
each rounded to 2 decimals independently — `transport`, `accommodation` and
`activities` are the individually rounded component sums and `total` is the
separately rounded sum of the un-rounded components; on an input with zero
activities and zero nights all four fields are 0; and on `tbl9`/`trip9` the
`total` field differs from the sum of the three rounded fields, so `total`
is not derived from them. -/
theorem c9_theorem :
    (∀ (tbl : FactorTable) (td : CarbonTripData),
      (calculateTripEmissions tbl td).transport
          = round2 (itineraryLegRaw tbl td + destinationFlightRaw tbl td) ∧
        (calculateTripEmissions tbl td).accommodation
          = round2 (accommodationRaw tbl td) ∧
        (calculateTripEmissions tbl td).activities
          = round2 (itineraryActivityRaw tbl td) ∧
        (calculateTripEmissions tbl td).total
          = round2 (itineraryLegRaw tbl td + destinationFlightRaw tbl td
              + accommodationRaw tbl td + itineraryActivityRaw tbl td)) ∧
    (∀ tbl : FactorTable, calculateTripEmissions tbl tripZero
      = ⟨0, 0, 0, 0⟩) ∧
    (calculateTripEmissions tbl9 trip9).total
      ≠ (calculateTripEmissions tbl9 trip9).transport
        + (calculateTripEmissions tbl9 trip9).accommodation
        + (calculateTripEmissions tbl9 trip9).activities := by
  refine ⟨fun tbl td => ⟨rfl, rfl, rfl, rfl⟩, ?_, ?_⟩
  · intro tbl
    have h3 : accommodationRaw tbl tripZero = 0 := by
      simp only [accommodationRaw, tripZero]
      rw [if_neg (by simp [truthyQ])]
    show EmissionsResult.mk _ _ _ _ = _
    rw [show itineraryLegRaw tbl tripZero = 0 from rfl,
      show destinationFlightRaw tbl tripZero = 0 from rfl,
      show itineraryActivityRaw tbl tripZero = 0 from rfl, h3]
    norm_num [round2_zero]
  · have hw : calculateTransportEmissions tbl9 "w" 1 = 1 * (1/200) := by
      apply calcTransport_hit (by push_neg; exact ⟨by decide, by norm_num⟩)
      rw [show (modeMap (jsToLower "w")).getD "w" = "w" from by decide]
      rfl
    have hleg : itineraryLegRaw tbl9 trip9
        = calculateTransportEmissions tbl9 "w" 1 := by
      simp only [itineraryLegRaw, daysLegRaw, trip9, itin9, act9,
        List.map_cons, List.map_nil, List.sum_cons, List.sum_nil,
        Option.getD_some, activityLegEmission, truthyQ, truthyS]
      rw [if_pos ⟨by norm_num, by decide⟩]
      simp
    have hacc : accommodationRaw tbl9 trip9 = 1 * (1/200) := by
      simp only [accommodationRaw, trip9]
      rw [if_pos (by constructor <;> decide)]
      exact calcAccommodation_hit (by push_neg; exact ⟨by decide, by norm_num⟩) rfl
    have hact : itineraryActivityRaw tbl9 trip9 = 0 := by
      simp [itineraryActivityRaw, daysActivityRaw, trip9, itin9, act9,
        activityCategoryEmission, truthyS]
    have hfl : destinationFlightRaw tbl9 trip9 = 0 := rfl
    show round2 (itineraryLegRaw tbl9 trip9 + destinationFlightRaw tbl9 trip9
        + accommodationRaw tbl9 trip9 + itineraryActivityRaw tbl9 trip9)
      ≠ round2 (itineraryLegRaw tbl9 trip9 + destinationFlightRaw tbl9 trip9)
        + round2 (accommodationRaw tbl9 trip9)
        + round2 (itineraryActivityRaw tbl9 trip9)
    rw [hleg, hacc, hact, hfl, hw]
    rw [show (1 : ℚ) * (1/200) = 1/200 by norm_num]
    rw [show (1 : ℚ)/200 + 0 + 1/200 + 0 = 1/100 by norm_num]
    rw [show (1 : ℚ)/200 + 0 = 1/200 by norm_num]
    rw [round2_eq 1 (by norm_num) (by norm_num),
      round2_eq 1 (by norm_num) (by norm_num), round2_zero]
    norm_num

theorem normalizeActivity_cost (i j : ℕ) (a : RawActivity) :
    (normalizeActivity i j a).cost = none := rfl

theorem normalizeDay_activities (s : ℤ) (i : ℕ) (d : RawDay) :
    (normalizeDay s i d).activities
      = some (mapWithIndex (fun ai a => normalizeActivity i ai a) 0
          (d.activities.getD [])) := rfl

theorem normalizeDay_daily_cost (s : ℤ) (i : ℕ) (d : RawDay) :
    (normalizeDay s i d).daily_cost = d.daily_cost := rfl

theorem normalizeDay_date (s : ℤ) (i : ℕ) (d : RawDay) :
    (normalizeDay s i d).date = some (s + (i : ℤ)) := rfl

/-- Per-day sum of the `cost` keys of normalized activities is 0: the
normalization drops the `cost` key. -/
theorem normalized_cost_sum (s : ℤ) (i : ℕ) (d : RawDay) :
    ((((normalizeDay s i d).activities).getD []).map
      (fun a => a.cost.getD 0)).sum = 0 := by
  rw [normalizeDay_activities, Option.getD_some]
  apply List.sum_eq_zero
  intro x hx
  rw [List.mem_map] at hx
  obtain ⟨a, ha, rfl⟩ := hx
  obtain ⟨j, a0, _, rfl⟩ := mem_mapWithIndex _ _ ha
  rfl

/-- Per-day activity-category emission of normalized activities is 0: the
normalization drops the `category` key that `calculateTripEmissions` reads. -/
theorem normalized_cat_sum (tbl : FactorTable) (s : ℤ) (i : ℕ) (d : RawDay) :
    ((((normalizeDay s i d).activities).getD []).map
      (activityCategoryEmission tbl)).sum = 0 := by
  rw [normalizeDay_activities, Option.getD_some]
  apply List.sum_eq_zero
  intro x hx
  rw [List.mem_map] at hx
  obtain ⟨a, ha, rfl⟩ := hx
  obtain ⟨j, a0, _, rfl⟩ := mem_mapWithIndex _ _ ha
  rfl

/-- Per-day inter-activity transport emission of normalized activities is 0:
the normalization drops the `transport_distance_km` key. -/
theorem normalized_leg_sum (tbl : FactorTable) (s : ℤ) (i : ℕ) (d : RawDay) :
    ((((normalizeDay s i d).activities).getD []).map
      (activityLegEmission tbl)).sum = 0 := by
  rw [normalizeDay_activities, Option.getD_some]
  apply List.sum_eq_zero
  intro x hx
  rw [List.mem_map] at hx
  obtain ⟨a, ha, rfl⟩ := hx
  obtain ⟨j, a0, _, rfl⟩ := mem_mapWithIndex _ _ ha
  rfl

theorem normalized_daysActivityRaw (tbl : FactorTable) (s : ℤ)
    (ds : List RawDay) :
    daysActivityRaw tbl (some (mapWithIndex (normalizeDay s) 0 ds)) = 0 := by
  unfold daysActivityRaw
  apply List.sum_eq_zero
  intro x hx
  rw [List.mem_map] at hx
  obtain ⟨d, hd, rfl⟩ := hx
  obtain ⟨i, d0, _, rfl⟩ := mem_mapWithIndex _ _ hd
  exact normalized_cat_sum tbl s i d0

theorem normalized_daysLegRaw (tbl : FactorTable) (s : ℤ)
    (ds : List RawDay) :
    daysLegRaw tbl (some (mapWithIndex (normalizeDay s) 0 ds)) = 0 := by
  unfold daysLegRaw
  apply List.sum_eq_zero
  intro x hx
  rw [List.mem_map] at hx
  obtain ⟨d, hd, rfl⟩ := hx
  obtain ⟨i, d0, _, rfl⟩ := mem_mapWithIndex _ _ hd
  exact normalized_leg_sum tbl s i d0

/-- `validateAndEnhanceItinerary` succeeds exactly on a present days array,
and its output days are the index-normalized days. -/
theorem validate_ok_days {it : RawItinerary} {s : ℤ} {out : RawItinerary}
    (h : validateAndEnhanceItinerary it s = .ok out) :
    ∃ ds, it.days = some ds ∧
      out.days = some (mapWithIndex (normalizeDay s) 0 ds) := by
  unfold validateAndEnhanceItinerary at h
  cases hd : it.days with
  | none => rw [hd] at h; exact Except.noConfusion h
  | some ds =>
    rw [hd] at h
    refine ⟨ds, rfl, ?_⟩
    have h2 := Except.ok.inj h
    rw [← h2]
    split_ifs <;> rfl

theorem demoRaw_days (td : TripData) :
    (demoRawItinerary td).days
      = some ((List.range (td.end_date - td.start_date + 1).toNat).map
          (fun (i : ℕ) => demoDay td (td.end_date - td.start_date + 1)
            ((i : ℤ) + 1))) := rfl

theorem demoDay_activities (td : TripData) (numDays day : ℤ) :
    (demoDay td numDays day).activities
      = some ((List.range 5).map (demoActivity td.destination day)) := rfl

theorem demoDay_daily_cost (td : TripData) (numDays day : ℤ) :
    (demoDay td numDays day).daily_cost
      = some ((jsRound (td.budget / (numDays : ℚ) * (4/5)) : ℤ) : ℚ) := rfl

/-- The demo fallback always validates: its days array is present. -/
theorem generateDemoItinerary_shape (td : TripData) :
    ∃ out, generateDemoItinerary td = .ok out ∧
      out.days = some (mapWithIndex (normalizeDay td.start_date) 0
        ((List.range (td.end_date - td.start_date + 1).toNat).map
          (fun (i : ℕ) => demoDay td (td.end_date - td.start_date + 1)
            ((i : ℤ) + 1)))) := by
  cases hv : generateDemoItinerary td with
  | error e =>
    exfalso
    unfold generateDemoItinerary validateAndEnhanceItinerary at hv
    rw [demoRaw_days] at hv
    exact Except.noConfusion hv
  | ok out =>
    refine ⟨out, rfl, ?_⟩
    unfold generateDemoItinerary at hv
    obtain ⟨ds, hds, hout⟩ := validate_ok_days hv
    rw [demoRaw_days] at hds
    obtain rfl := Option.some.inj hds
    exact hout

/-- Every successful `generateItinerary` result (AI path or demo fallback)
is a `validateAndEnhanceItinerary` output: its days are index-normalized. -/
theorem generateItinerary_days {td : TripData} {ai : Option RawItinerary}
    {v : RawItinerary} (h : generateItinerary td ai = .ok v) :
    ∃ ds, v.days = some (mapWithIndex (normalizeDay td.start_date) 0 ds) := by
  unfold generateItinerary at h
  cases ai with
  | none =>
    unfold generateDemoItinerary at h
    obtain ⟨ds, _, hd⟩ := validate_ok_days h
    exact ⟨ds, hd⟩
  | some draft =>
    have h2 : (match validateAndEnhanceItinerary draft td.start_date with
        | Except.ok w => Except.ok w
        | Except.error _ => generateDemoItinerary td) = Except.ok v := h
    cases hval : validateAndEnhanceItinerary draft td.start_date with
    | ok w =>
      rw [hval] at h2
      obtain rfl := Except.ok.inj h2
      obtain ⟨ds, _, hd⟩ := validate_ok_days hval
      exact ⟨ds, hd⟩
    | error e =>
      rw [hval] at h2
      unfold generateDemoItinerary at h2
      obtain ⟨ds, _, hd⟩ := validate_ok_days h2
      exact ⟨ds, hd⟩

theorem calculateTotalCost_congr {it1 it2 : RawItinerary}
    (h : it1.days = it2.days) :
    calculateTotalCost it1 = calculateTotalCost it2 := by
  unfold calculateTotalCost
  rw [h]

theorem composeTrip_itinerary_days (tbl : FactorTable) (td : TripData)
    (geo : Option Location) (v : RawItinerary) :
    (composeTrip tbl td geo v).itinerary.days = v.days := rfl

theorem composeTrip_total_cost (tbl : FactorTable) (td : TripData)
    (geo : Option Location) (v : RawItinerary) :
    (composeTrip tbl td geo v).total_cost = calculateTotalCost v :=
  calculateTotalCost_congr rfl

theorem composeTrip_total_carbon (tbl : FactorTable) (td : TripData)
    (geo : Option Location) (v : RawItinerary) :
    (composeTrip tbl td geo v).total_carbon_kg
      = (composeTrip tbl td geo v).carbon_breakdown.total := rfl

/-- A successful `generateTrip` is exactly `composeTrip` of a successful
`generateItinerary`. -/
theorem generateTrip_ok {tbl : FactorTable} {td : TripData}
    {geo : Option Location} {ai : Option RawItinerary} {trip : TripResult}
    (h : generateTrip tbl td geo ai = .ok trip) :
    ∃ v, generateItinerary td ai = .ok v ∧ trip = composeTrip tbl td geo v := by
  unfold generateTrip at h
  cases hg : generateItinerary td ai with
  | error e => rw [hg] at h; exact Except.noConfusion h
  | ok v =>
    rw [hg] at h
    exact ⟨v, rfl, (Except.ok.inj h).symm⟩

/-- Claim C6: when the AI provider fails (`ai = none`), `generateTrip`
still returns a trip (never an error) whose itinerary covers exactly
`endDate − startDate + 1` days, each day with a non-empty activity list. -/
theorem c6_theorem (tbl : FactorTable) (td : TripData) (geo : Option Location)
    (h : td.start_date ≤ td.end_date) :
    ∃ trip, generateTrip tbl td geo none = .ok trip ∧
      ((trip.itinerary.days.getD []).length : ℤ)
        = td.end_date - td.start_date + 1 ∧
      ∀ d ∈ trip.itinerary.days.getD [], d.activities.getD [] ≠ [] := by
  obtain ⟨v, hv, hdays⟩ := generateDemoItinerary_shape td
  have hgen : generateItinerary td none = .ok v := hv
  refine ⟨composeTrip tbl td geo v, ?_, ?_, ?_⟩
  · unfold generateTrip
    rw [hgen]
  · rw [composeTrip_itinerary_days, hdays, Option.getD_some,
      mapWithIndex_length, List.length_map, List.length_range]
    omega
  · rw [composeTrip_itinerary_days, hdays, Option.getD_some]
    intro d hd
    obtain ⟨i, d0, hd0, rfl⟩ := mem_mapWithIndex _ _ hd
    rw [List.mem_map] at hd0
    obtain ⟨j, _, rfl⟩ := hd0
    rw [normalizeDay_activities, Option.getD_some]
    apply mapWithIndex_ne_nil
    rw [demoDay_activities, Option.getD_some]
    simp

theorem c6_witness :
    td0.start_date ≤ td0.end_date ∧
      ∃ trip, generateTrip tbl0 td0 none none = .ok trip ∧
        ((trip.itinerary.days.getD []).length : ℤ)
          = td0.end_date - td0.start_date + 1 ∧
        ∀ d ∈ trip.itinerary.days.getD [], d.activities.getD [] ≠ [] :=
  ⟨by decide, c6_theorem tbl0 td0 none (by decide)⟩

/-- Claim C7 counterexample: the demo template substituted on AI failure is
not made of zero-cost activities — on the concrete request `td0` every day
carries the fixed per-activity costs `[0, 15, 25, 10, 0]`, and `15 ≠ 0`. -/
theorem c7_counterexample :
    (generateDemoItinerary td0).map (fun out =>
        (out.days.getD []).map (fun d =>
          (d.activities.getD []).map (fun a => a.estimated_cost)))
      = .ok [[some 0, some 15, some 25, some 10, some 0],
          [some 0, some 15, some 25, some 10, some 0],
          [some 0, some 15, some 25, some 10, some 0]] ∧
      some (15 : ℚ) ≠ some (0 : ℚ) := by
  obtain ⟨out, hout, hdays⟩ := generateDemoItinerary_shape td0
  constructor
  · rw [hout]
    show Except.ok ((out.days.getD []).map (fun d =>
      (d.activities.getD []).map (fun a => a.estimated_cost))) = _
    rw [hdays]
    rfl
  · intro hcon
    exact absurd (Option.some.inj hcon) (by norm_num)

/-- Claim C7 (amended): the template substituted on AI provider failure is
deterministic (a pure function of the request in this embedding) and is a
fixed 5-activity daily pattern of walking-based activities covering the same
day count and date range; its per-activity costs are the fixed pattern
`[0, 15, 25, 10, 0]` — not all zero. -/
theorem c7_amended (td : TripData) (h : td.start_date ≤ td.end_date) :
    ∃ out, generateDemoItinerary td = .ok out ∧
      ∃ l, out.days = some l ∧
        (l.length : ℤ) = td.end_date - td.start_date + 1 ∧
        (∀ (i : ℕ) (hi : i < l.length),
          (l.get ⟨i, hi⟩).date = some (td.start_date + (i : ℤ))) ∧
        ∀ d ∈ l,
          (d.activities.getD []).map (fun a => a.transport_mode)
            = [some "walking", some "walking", some "walking",
                some "walking", some "walking"] ∧
          (d.activities.getD []).map (fun a => a.estimated_cost)
            = [some 0, some 15, some 25, some 10, some 0] := by
  obtain ⟨out, hout, hdays⟩ := generateDemoItinerary_shape td
  refine ⟨out, hout, _, hdays, ?_, ?_, ?_⟩
  · rw [mapWithIndex_length, List.length_map, List.length_range]
    omega
  · intro i hi
    have hi0 : i < ((List.range (td.end_date - td.start_date + 1).toNat).map
        (fun (i : ℕ) => demoDay td (td.end_date - td.start_date + 1)
          ((i : ℤ) + 1))).length := by
      rw [← mapWithIndex_length (normalizeDay td.start_date) 0]
      exact hi
    rw [mapWithIndex_get (normalizeDay td.start_date) 0 _ i hi0 hi,
      normalizeDay_date]
    simp
  · intro d hd
    obtain ⟨i, d0, hd0, rfl⟩ := mem_mapWithIndex _ _ hd
    rw [List.mem_map] at hd0
    obtain ⟨j, _, rfl⟩ := hd0
    exact ⟨rfl, rfl⟩

theorem c7_witness :
    td0.start_date ≤ td0.end_date ∧
      ∃ out, generateDemoItinerary td0 = .ok out ∧
        ∃ l, out.days = some l ∧
          (l.length : ℤ) = td0.end_date - td0.start_date + 1 ∧
          (∀ (i : ℕ) (hi : i < l.length),
            (l.get ⟨i, hi⟩).date = some (td0.start_date + (i : ℤ))) ∧
          ∀ d ∈ l,
            (d.activities.getD []).map (fun a => a.transport_mode)
              = [some "walking", some "walking", some "walking",
                  some "walking", some "walking"] ∧
            (d.activities.getD []).map (fun a => a.estimated_cost)
              = [some 0, some 15, some 25, some 10, some 0] :=
  ⟨by decide, c7_amended td0 (by decide)⟩

/-- Claim C1 (amended): for every trip returned by the pipeline,
`total_cost` is the sum of the days' `daily_cost` fields alone, rounded to 2
decimals — per-activity estimated costs contribute nothing, because
`calculateTotalCost` reads the `cost` key that the normalization drops — and
it is non-negative whenever every `daily_cost` is. -/
theorem c1_amended (tbl : FactorTable) (td : TripData) (geo : Option Location)
    (ai : Option RawItinerary) (trip : TripResult)
    (h : generateTrip tbl td geo ai = .ok trip) :
    trip.total_cost = round2 (((trip.itinerary.days.getD []).map
        (fun d => d.daily_cost.getD 0)).sum) ∧
    ((∀ d ∈ trip.itinerary.days.getD [], 0 ≤ d.daily_cost.getD 0) →
      0 ≤ trip.total_cost) := by
  obtain ⟨v, hv, rfl⟩ := generateTrip_ok h
  obtain ⟨ds, hvdays⟩ := generateItinerary_days hv
  have hmain : (composeTrip tbl td geo v).total_cost
      = round2 ((((composeTrip tbl td geo v).itinerary.days.getD []).map
          (fun d => d.daily_cost.getD 0)).sum) := by
    rw [composeTrip_total_cost, composeTrip_itinerary_days]
    unfold calculateTotalCost
    rw [hvdays, Option.getD_some]
    show round2 (((mapWithIndex (normalizeDay td.start_date) 0 ds).map
        (fun d => ((d.activities.getD []).map (fun a => a.cost.getD 0)).sum
          + d.daily_cost.getD 0)).sum) = _
    congr 1
    apply sum_map_congr
    intro d hd
    obtain ⟨i, d0, _, rfl⟩ := mem_mapWithIndex _ _ hd
    rw [normalized_cost_sum, zero_add]
  refine ⟨hmain, ?_⟩
  intro hnn
  rw [hmain]
  apply round2_nonneg
  apply List.sum_nonneg
  intro x hx
  rw [List.mem_map] at hx
  obtain ⟨d, hd, rfl⟩ := hx
  exact hnn d hd

/-- Claim C1 counterexample: on the concrete request `td0` (3 days, budget
300) with the AI provider failing, the pipeline trip has `total_cost = 240`
(the rounded sum of the three `daily_cost` fields of 80), while the claimed
aggregation — every activity estimated cost plus every daily cost — comes to
390; the two disagree because `calculateTotalCost` reads the `cost` key that
normalization drops, so activity costs never contribute. -/
theorem c1_counterexample :
    generateTrip tbl0 td0 none none = .ok pipeTrip ∧
      pipeTrip.total_cost = 240 ∧
      specTotalCost pipeTrip.itinerary = 390 ∧
      (240 : ℚ) ≠ 390 := by
  obtain ⟨v, hv, hdays⟩ := generateDemoItinerary_shape td0
  have hgen : generateItinerary td0 none = .ok v := hv
  have htrip : generateTrip tbl0 td0 none none = .ok (composeTrip tbl0 td0 none v) := by
    unfold generateTrip
    rw [hgen]
  have hpipe : pipeTrip = composeTrip tbl0 td0 none v := by
    unfold pipeTrip
    rw [htrip]
    rfl
  have hdays3 : v.days = some [normalizeDay 0 0 (demoDay td0 3 1),
      normalizeDay 0 1 (demoDay td0 3 2), normalizeDay 0 2 (demoDay td0 3 3)] := by
    rw [hdays]
    rfl
  have hdc : jsRound (td0.budget / ((3 : ℤ) : ℚ) * (4/5)) = 80 :=
    jsRound_eq 80 (by push_cast; norm_num [td0]) (by push_cast; norm_num [td0])
  refine ⟨by rw [htrip, hpipe], ?_, ?_, by norm_num⟩
  · rw [hpipe, composeTrip_total_cost]
    unfold calculateTotalCost
    rw [hdays3]
    show round2 (([normalizeDay 0 0 (demoDay td0 3 1),
        normalizeDay 0 1 (demoDay td0 3 2),
        normalizeDay 0 2 (demoDay td0 3 3)].map
      (fun d => ((d.activities.getD []).map (fun a => a.cost.getD 0)).sum
        + d.daily_cost.getD 0)).sum) = 240
    simp only [List.map_cons, List.map_nil, List.sum_cons, List.sum_nil,
      normalized_cost_sum, normalizeDay_daily_cost, demoDay_daily_cost,
      Option.getD_some, zero_add, add_zero]
    rw [hdc]
    rw [round2_eq 24000 (by push_cast; norm_num) (by push_cast; norm_num)]
    norm_num
  · rw [hpipe]
    unfold specTotalCost
    rw [composeTrip_itinerary_days, hdays3, Option.getD_some]
    have hest : ∀ (i : ℕ) (j : ℤ),
        (((normalizeDay (0 : ℤ) i (demoDay td0 3 j)).activities.getD []).map
          (fun a => a.estimated_cost.getD 0)) = [0, 15, 25, 10, 0] :=
      fun i j => rfl
    simp only [List.map_cons, List.map_nil, List.sum_cons, List.sum_nil,
      normalizeDay_daily_cost, demoDay_daily_cost, Option.getD_some, add_zero]
    rw [hest 0 1, hest 1 2, hest 2 3, hdc]
    rw [round2_eq 39000 (by push_cast; norm_num) (by push_cast; norm_num)]
    norm_num

theorem c1_witness :
    generateTrip tbl0 td0 none none = .ok pipeTrip ∧
      pipeTrip.total_cost = round2 (((pipeTrip.itinerary.days.getD []).map
        (fun d => d.daily_cost.getD 0)).sum) :=
  ⟨rfl, (c1_amended tbl0 td0 none none pipeTrip rfl).1⟩

/-- Claim C2: every pipeline trip has `carbon_breakdown.transport = 0` and
`carbon_breakdown.activities = 0`, and `total_carbon_kg` equals the rounded
accommodation component alone; the normalized activities never carry the
`category` or `transport_distance_km` keys that `calculateTripEmissions`
reads (and `generateTrip` passes `destination_distance_km: 0`, so no flight
leg is added). -/
theorem c2_theorem (tbl : FactorTable) (td : TripData) (geo : Option Location)
    (ai : Option RawItinerary) (trip : TripResult)
    (h : generateTrip tbl td geo ai = .ok trip) :
    trip.carbon_breakdown.transport = 0 ∧
    trip.carbon_breakdown.activities = 0 ∧
    trip.total_carbon_kg = trip.carbon_breakdown.accommodation ∧
    ∀ d ∈ trip.itinerary.days.getD [], ∀ a ∈ d.activities.getD [],
      a.category = none ∧ a.transport_distance_km = none := by
  obtain ⟨v, hv, rfl⟩ := generateTrip_ok h
  obtain ⟨ds, hvdays⟩ := generateItinerary_days hv
  have hL : daysLegRaw tbl v.days = 0 := by
    rw [hvdays]; exact normalized_daysLegRaw tbl td.start_date ds
  have hA : daysActivityRaw tbl v.days = 0 := by
    rw [hvdays]; exact normalized_daysActivityRaw tbl td.start_date ds
  refine ⟨?_, ?_, ?_, ?_⟩
  · show round2 (daysLegRaw tbl v.days + 0) = 0
    rw [hL, add_zero, round2_zero]
  · show round2 (daysActivityRaw tbl v.days) = 0
    rw [hA, round2_zero]
  · show round2 (daysLegRaw tbl v.days + 0 + accommodationRaw tbl _
        + daysActivityRaw tbl v.days) = round2 (accommodationRaw tbl _)
    rw [hL, hA]
    norm_num
  · rw [composeTrip_itinerary_days, hvdays, Option.getD_some]
    intro d hd
    obtain ⟨i, d0, _, rfl⟩ := mem_mapWithIndex _ _ hd
    rw [normalizeDay_activities, Option.getD_some]
    intro a ha
    obtain ⟨j, a0, _, rfl⟩ := mem_mapWithIndex _ _ ha
    exact ⟨rfl, rfl⟩

theorem c2_witness :
    generateTrip tbl0 td0 none none = .ok pipeTrip ∧
      pipeTrip.carbon_breakdown.transport = 0 ∧
      pipeTrip.carbon_breakdown.activities = 0 ∧
      pipeTrip.total_carbon_kg = pipeTrip.carbon_breakdown.accommodation :=
  ⟨rfl, (c2_theorem tbl0 td0 none none pipeTrip rfl).1,
    (c2_theorem tbl0 td0 none none pipeTrip rfl).2.1,
    (c2_theorem tbl0 td0 none none pipeTrip rfl).2.2.1⟩

end EcoTrip
